import Mathlib

/-!
Verification of the ignite-rs thin-client wire-protocol layer.

The development shallowly embeds the Rust sources:
  src/ignite-rs/src/api/key_value.rs      (CacheReq and the response parsers)
  src/ignite-rs/src/api/cache_config.rs   (CacheGetNamesResp and friends)
  src/ignite-rs/src/connection.rs         (frame header, response dispatch)
  src/ignite-rs/src/cache.rs              (configuration enums, query_scan*)
  src/ignite-rs/src/error.rs              (the flat Error enum)

Bytes are modelled as natural numbers below 256, a wire stream as a
List Nat read from the front, and fallible reads as Except values.
The primitive codec (the protocol module of the crate) is not part of
the provided sources, so its functions are modelled from the spec and
are marked as such in their doc comments.
-/

/-- Error type embedding src/ignite-rs/src/error.rs. The Rust enum has a
Custom variant with a String description plus an IoError variant wrapping
the std I/O error. Literal descriptions keep their Rust text; a description
built from a decoded wire string is kept as its UTF-8 bytes, since wire
strings are modelled as byte lists. -/
inductive IgniteError where
  | custom (desc : String)
  | customOfBytes (desc : List Nat)
  | ioError
  deriving DecidableEq, Repr

/-- Modelled from the spec: the protocol type code for a UTF-8 string value
(protocol module not in src; §6 of the spec fixes the codes to the Ignite
binary protocol, where String is 9). -/
def TYPE_CODE_STRING : Nat := 9

/-- Modelled from the spec: the dedicated null-marker type code (§4.1;
101 in the Ignite binary protocol). -/
def TYPE_CODE_NULL : Nat := 101

/-- Little-endian byte decomposition of a natural number into a fixed
number of bytes. -/
def natLeBytes : Nat → Nat → List Nat
  | 0, _ => []
  | w + 1, m => m % 256 :: natLeBytes w (m / 256)

/-- Value of a little-endian byte list. -/
def leToNat : List Nat → Nat
  | [] => 0
  | b :: t => b % 256 + 256 * leToNat t

/-- Two's-complement reading of an unsigned value of the given bit width. -/
def toSigned (bits : Nat) (m : Nat) : Int :=
  if m < 2 ^ (bits - 1) then (m : Int) else (m : Int) - 2 ^ bits

/-- Modelled from the spec: write_u8 of the protocol module emits one byte. -/
def writeU8 (n : Nat) : List Nat := [n % 256]

/-- Modelled from the spec: write_i8 emits one byte (two's complement). -/
def writeI8 (n : Int) : List Nat := [(n % 256).toNat]

/-- Modelled from the spec: write_i16 emits the two little-endian bytes of
the value's two's complement. -/
def writeI16 (n : Int) : List Nat := natLeBytes 2 (n % 65536).toNat

/-- Modelled from the spec: write_i32 emits the four little-endian bytes of
the value's two's complement. -/
def writeI32 (n : Int) : List Nat := natLeBytes 4 (n % 4294967296).toNat

/-- Modelled from the spec: write_i64 emits the eight little-endian bytes of
the value's two's complement. -/
def writeI64 (n : Int) : List Nat := natLeBytes 8 (n % 18446744073709551616).toNat

/-- Modelled from the spec: write_bool emits one byte, 1 for true, 0 for
false (§4.1: booleans as one byte 0/1). -/
def writeBool (b : Bool) : List Nat := [if b then 1 else 0]

/-- Modelled from the spec: write_null emits the single null-marker
type-code byte (§4.1). -/
def writeNull : List Nat := [TYPE_CODE_NULL]

/-- Modelled from the spec: write_string emits a 4-byte length followed by
the UTF-8 bytes, with no type code (the type code is written separately by
the callers in key_value.rs; the size() arms there count
4 + len + 1 per typed string field). A string value is modelled as its
UTF-8 byte list, whose length matches Rust String::len. -/
def writeString (s : List Nat) : List Nat := writeI32 s.length ++ s

/-- Modelled from the spec: write_string_type_code (used by
cache_config.rs and by the String Encodable impl) prefixes the
length-prefixed bytes with the string type code; its size is
len + 5 as stated at src/ignite-rs/src/api/cache_config.rs line 119. -/
def write_string_type_code (s : List Nat) : List Nat :=
  writeU8 TYPE_CODE_STRING ++ writeString s

/-- Read a fixed number of bytes, failing with an I/O error on a short
stream (§4.1: all reads fail with an I/O error kind when the stream
yields fewer bytes than required). -/
def readExact (n : Nat) (s : List Nat) : Except IgniteError (List Nat × List Nat) :=
  if n ≤ s.length then .ok (s.take n, s.drop n) else .error .ioError

/-- Modelled from the spec: read_u8 of the protocol module. -/
def readU8 (s : List Nat) : Except IgniteError (Nat × List Nat) :=
  match s with
  | [] => .error .ioError
  | b :: rest => .ok (b, rest)

/-- Modelled from the spec: read_bool reads one byte and returns whether it
equals 1. -/
def readBool (s : List Nat) : Except IgniteError (Bool × List Nat) :=
  match readU8 s with
  | .error e => .error e
  | .ok (b, rest) => .ok (b == 1, rest)

/-- Modelled from the spec: read_i32 reads four little-endian bytes as a
signed 32-bit value. -/
def readI32 (s : List Nat) : Except IgniteError (Int × List Nat) :=
  match readExact 4 s with
  | .error e => .error e
  | .ok (bs, rest) => .ok (toSigned 32 (leToNat bs), rest)

/-- Modelled from the spec: read_i64 reads eight little-endian bytes as a
signed 64-bit value. -/
def readI64 (s : List Nat) : Except IgniteError (Int × List Nat) :=
  match readExact 8 s with
  | .error e => .error e
  | .ok (bs, rest) => .ok (toSigned 64 (leToNat bs), rest)

/-- Modelled from the spec: the Decodable impl for String (§4.2): a null
marker decodes to none, the string type code to the length-prefixed bytes,
any other type code is a decode error; short streams are I/O errors. -/
def readString (s : List Nat) : Except IgniteError (Option (List Nat) × List Nat) :=
  match readU8 s with
  | .error e => .error e
  | .ok (tc, s1) =>
    if tc = TYPE_CODE_NULL then .ok (none, s1)
    else if tc = TYPE_CODE_STRING then
      match readI32 s1 with
      | .error e => .error e
      | .ok (len, s2) =>
        if 0 ≤ len ∧ len.toNat ≤ s2.length then
          .ok (some (s2.take len.toNat), s2.drop len.toNat)
        else .error .ioError
    else .error (.custom "unexpected type code")

@[simp] theorem writeU8_length (n : Nat) : (writeU8 n).length = 1 := rfl

@[simp] theorem writeI8_length (n : Int) : (writeI8 n).length = 1 := rfl

@[simp] theorem writeI16_length (n : Int) : (writeI16 n).length = 2 := rfl

@[simp] theorem writeI32_length (n : Int) : (writeI32 n).length = 4 := rfl

@[simp] theorem writeI64_length (n : Int) : (writeI64 n).length = 8 := rfl

@[simp] theorem writeBool_length (b : Bool) : (writeBool b).length = 1 := rfl

@[simp] theorem writeNull_length : writeNull.length = 1 := rfl

@[simp] theorem writeString_length (s : List Nat) :
    (writeString s).length = 4 + s.length := by
  simp [writeString]

theorem leToNat_writeI32 (n : Int) :
    leToNat (writeI32 n) = (n % 4294967296).toNat := by
  unfold writeI32
  have h0 : 0 ≤ n % 4294967296 := by omega
  have h1 : n % 4294967296 < 4294967296 := by omega
  generalize hm : (n % 4294967296).toNat = m
  have hm' : m < 4294967296 := by omega
  simp only [natLeBytes, leToNat]
  omega

theorem leToNat_writeI64 (n : Int) :
    leToNat (writeI64 n) = (n % 18446744073709551616).toNat := by
  unfold writeI64
  have h0 : 0 ≤ n % 18446744073709551616 := by omega
  have h1 : n % 18446744073709551616 < 18446744073709551616 := by omega
  generalize hm : (n % 18446744073709551616).toNat = m
  have hm' : m < 18446744073709551616 := by omega
  simp only [natLeBytes, leToNat]
  omega

theorem readI32_writeI32 (n : Int) (t : List Nat)
    (h1 : -2147483648 ≤ n) (h2 : n < 2147483648) :
    readI32 (writeI32 n ++ t) = .ok (n, t) := by
  have hlen : (writeI32 n).length = 4 := writeI32_length n
  unfold readI32 readExact
  rw [if_pos (by simp [hlen])]
  rw [show (4 : Nat) = (writeI32 n).length from hlen.symm]
  rw [List.take_left, List.drop_left]
  show Except.ok (toSigned 32 (leToNat (writeI32 n)), t) = Except.ok (n, t)
  rw [leToNat_writeI32 n]
  have hval : toSigned 32 (n % 4294967296).toNat = n := by
    unfold toSigned
    split <;> omega
  rw [hval]

theorem readI64_writeI64 (n : Int) (t : List Nat)
    (h1 : -9223372036854775808 ≤ n) (h2 : n < 9223372036854775808) :
    readI64 (writeI64 n ++ t) = .ok (n, t) := by
  have hlen : (writeI64 n).length = 8 := writeI64_length n
  unfold readI64 readExact
  rw [if_pos (by simp [hlen])]
  rw [show (8 : Nat) = (writeI64 n).length from hlen.symm]
  rw [List.take_left, List.drop_left]
  show Except.ok (toSigned 64 (leToNat (writeI64 n)), t) = Except.ok (n, t)
  rw [leToNat_writeI64 n]
  have hval : toSigned 64 (n % 18446744073709551616).toNat = n := by
    unfold toSigned
    split <;> omega
  rw [hval]

theorem readU8_writeU8 (b : Nat) (t : List Nat) (h : b < 256) :
    readU8 (writeU8 b ++ t) = .ok (b, t) := by
  simp [writeU8, readU8, Nat.mod_eq_of_lt h]

theorem readBool_writeBool (b : Bool) (t : List Nat) :
    readBool (writeBool b ++ t) = .ok (b, t) := by
  cases b <;> rfl

theorem readString_null (t : List Nat) :
    readString (writeNull ++ t) = .ok (none, t) := by
  rfl

theorem readString_write_string_type_code (s t : List Nat)
    (h : s.length < 2147483648) :
    readString (write_string_type_code s ++ t) = .ok (some s, t) := by
  unfold write_string_type_code writeString
  rw [List.append_assoc, List.append_assoc]
  unfold readString
  rw [show readU8 (writeU8 TYPE_CODE_STRING ++ (writeI32 (s.length : Int) ++ (s ++ t)))
        = .ok (TYPE_CODE_STRING, writeI32 (s.length : Int) ++ (s ++ t)) from
      readU8_writeU8 _ _ (by norm_num [TYPE_CODE_STRING])]
  simp only [TYPE_CODE_STRING, TYPE_CODE_NULL]
  norm_num
  rw [readI32_writeI32 (s.length : Int) (s ++ t) (by omega) (by omega)]
  simp only
  rw [if_pos (by constructor <;> simp [Int.toNat_natCast])]
  rw [show ((s.length : Int)).toNat = s.length from by omega]
  rw [List.take_left, List.drop_left]

/-- Capability of an encodable key/value type (the WritableType trait of
the crate): for a fixed value the bytes its write method emits, and the
byte count its size method reports. -/
structure WritableType (α : Type) where
  write : α → List Nat
  size : α → Nat

/-- Capability of a decodable key/value type (the ReadableType trait):
read returns none on a null marker, some value otherwise, or fails. -/
structure ReadableType (α : Type) where
  read : List Nat → Except IgniteError (Option α × List Nat)

/-- Concatenation of the encodings of a list's elements, mirroring the
for-loops in CacheReq::write. -/
def writeList (f : α → List Nat) : List α → List Nat
  | [] => []
  | a :: t => f a ++ writeList f t

/-- Accumulated size of a list's elements, mirroring the for-loops in
CacheReq::size. -/
def sizeSum (g : α → Nat) : List α → Nat
  | [] => 0
  | a :: t => g a + sizeSum g t

theorem writeList_length (f : α → List Nat) (g : α → Nat)
    (h : ∀ a, (f a).length = g a) :
    ∀ l : List α, (writeList f l).length = sizeSum g l := by
  intro l
  induction l with
  | nil => rfl
  | cons a t ih => simp [writeList, sizeSum, ih, h a]

theorem writeList_eq_flatten_map (f : α → List Nat) :
    ∀ l : List α, writeList f l = (l.map f).flatten := by
  intro l
  induction l with
  | nil => rfl
  | cons a t ih => simp [writeList, ih]

/-- MAGIC_BYTE of src/ignite-rs/src/api/key_value.rs line 14. -/
def MAGIC_BYTE : Nat := 0

/-- CACHE_ID_MAGIC_BYTE_SIZE of src/ignite-rs/src/api/key_value.rs line 15. -/
def CACHE_ID_MAGIC_BYTE_SIZE : Nat := 5

/-- CachePeekMode of src/ignite-rs/src/cache.rs lines 126-132. -/
inductive CachePeekMode where
  | all
  | near
  | primary
  | backup
  deriving DecidableEq, Repr

/-- The into-u8 conversion for CachePeekMode (the discriminant cast at
src/ignite-rs/src/cache.rs lines 134-138). -/
def CachePeekMode.toU8 : CachePeekMode → Nat
  | .all => 0
  | .near => 1
  | .primary => 2
  | .backup => 3

/-- CacheReq of src/ignite-rs/src/api/key_value.rs lines 17-42. Strings
(table name and SQL text) are modelled as their UTF-8 byte lists. -/
inductive CacheReq (K V : Type) where
  | get (id : Int) (key : K)
  | getAll (id : Int) (keys : List K)
  | put (id : Int) (key : K) (value : V)
  | putAll (id : Int) (pairs : List (K × V))
  | containsKey (id : Int) (key : K)
  | containsKeys (id : Int) (keys : List K)
  | getAndPut (id : Int) (key : K) (value : V)
  | getAndReplace (id : Int) (key : K) (value : V)
  | getAndRemove (id : Int) (key : K)
  | putIfAbsent (id : Int) (key : K) (value : V)
  | getAndPutIfAbsent (id : Int) (key : K) (value : V)
  | replace (id : Int) (key : K) (value : V)
  | replaceIfEquals (id : Int) (key : K) (old : V) (new : V)
  | clear (id : Int)
  | clearKey (id : Int) (key : K)
  | clearKeys (id : Int) (keys : List K)
  | removeKey (id : Int) (key : K)
  | removeIfEquals (id : Int) (key : K) (value : V)
  | getSize (id : Int) (modes : List CachePeekMode)
  | removeKeys (id : Int) (keys : List K)
  | removeAll (id : Int)
  | queryScan (id : Int) (pgSz : Int)
  | queryScanSql (id : Int) (pgSz : Int) (table : List Nat) (sql : List Nat)
  | queryScanSqlFields (id : Int) (pgSz : Int) (sql : List Nat)

/-- CacheReq::write of src/ignite-rs/src/api/key_value.rs lines 45-172,
arm for arm. -/
def writeCacheReq (wk : WritableType K) (wv : WritableType V) : CacheReq K V → List Nat
  | .get id key | .containsKey id key | .getAndRemove id key
  | .clearKey id key | .removeKey id key =>
      writeI32 id ++ writeU8 MAGIC_BYTE ++ wk.write key
  | .getAll id keys | .containsKeys id keys | .clearKeys id keys
  | .removeKeys id keys =>
      writeI32 id ++ writeU8 MAGIC_BYTE ++ writeI32 keys.length
        ++ writeList wk.write keys
  | .put id key value | .getAndPut id key value | .getAndReplace id key value
  | .putIfAbsent id key value | .getAndPutIfAbsent id key value
  | .replace id key value | .removeIfEquals id key value =>
      writeI32 id ++ writeU8 MAGIC_BYTE ++ wk.write key ++ wv.write value
  | .putAll id pairs =>
      writeI32 id ++ writeU8 MAGIC_BYTE ++ writeI32 pairs.length
        ++ writeList (fun p => wk.write p.1 ++ wv.write p.2) pairs
  | .replaceIfEquals id key old new =>
      writeI32 id ++ writeU8 MAGIC_BYTE ++ wk.write key
        ++ wv.write old ++ wv.write new
  | .clear id | .removeAll id =>
      writeI32 id ++ writeU8 MAGIC_BYTE
  | .getSize id modes =>
      writeI32 id ++ writeU8 MAGIC_BYTE ++ writeI32 modes.length
        ++ writeList (fun m => writeU8 m.toU8) modes
  | .queryScan id pgSz =>
      writeI32 id ++ writeU8 1 ++ writeNull ++ writeI32 pgSz
        ++ writeI32 (-1) ++ writeBool false
  | .queryScanSql id pgSz table sql =>
      writeI32 id ++ writeU8 0 ++ writeU8 TYPE_CODE_STRING ++ writeString table
        ++ writeU8 TYPE_CODE_STRING ++ writeString sql ++ writeI32 0
        ++ writeBool false ++ writeBool false ++ writeBool false
        ++ writeI32 pgSz ++ writeI64 10000
  | .queryScanSqlFields id pgSz sql =>
      writeI32 id ++ writeU8 0 ++ writeNull ++ writeI32 pgSz ++ writeI32 pgSz
        ++ writeU8 TYPE_CODE_STRING ++ writeString sql ++ writeI32 0
        ++ writeI8 1 ++ writeBool false ++ writeBool false ++ writeBool false
        ++ writeBool false ++ writeBool false ++ writeBool false
        ++ writeI64 10000 ++ writeBool false

/-- CacheReq::size of src/ignite-rs/src/api/key_value.rs lines 174-258,
arm for arm. -/
def sizeCacheReq (wk : WritableType K) (wv : WritableType V) : CacheReq K V → Nat
  | .get _ key | .containsKey _ key | .getAndRemove _ key
  | .clearKey _ key | .removeKey _ key =>
      CACHE_ID_MAGIC_BYTE_SIZE + wk.size key
  | .getAll _ keys | .containsKeys _ keys | .clearKeys _ keys
  | .removeKeys _ keys =>
      CACHE_ID_MAGIC_BYTE_SIZE + 4 + sizeSum wk.size keys
  | .put _ key value | .getAndPut _ key value | .getAndReplace _ key value
  | .putIfAbsent _ key value | .getAndPutIfAbsent _ key value
  | .replace _ key value | .removeIfEquals _ key value =>
      CACHE_ID_MAGIC_BYTE_SIZE + wk.size key + wv.size value
  | .putAll _ pairs =>
      CACHE_ID_MAGIC_BYTE_SIZE + 4
        + sizeSum (fun p => wk.size p.1 + wv.size p.2) pairs
  | .replaceIfEquals _ key old new =>
      CACHE_ID_MAGIC_BYTE_SIZE + wk.size key + wv.size old + wv.size new
  | .clear _ | .removeAll _ => CACHE_ID_MAGIC_BYTE_SIZE
  | .getSize _ modes =>
      CACHE_ID_MAGIC_BYTE_SIZE + 4 + sizeSum (fun _ => 1) modes
  | .queryScan _ _ =>
      CACHE_ID_MAGIC_BYTE_SIZE + 1 + 4 + 4 + 1
  | .queryScanSql _ _ table sql =>
      CACHE_ID_MAGIC_BYTE_SIZE
        + (4 + table.length + 1)
        + (4 + sql.length + 1)
        + 4 + 1 + 1 + 1 + 4 + 8
  | .queryScanSqlFields _ _ sql =>
      CACHE_ID_MAGIC_BYTE_SIZE + 1 + 4 + 4
        + (4 + sql.length + 1)
        + 4 + 1 + 1 + 1 + 1 + 1 + 1 + 1 + 8 + 1

/-- Modelled from the spec: the Encodable impl for String (§4.2, §4.4 and
the size comments in cache_config.rs): write emits type code, 4-byte
length and the UTF-8 bytes; size reports len + 5. -/
def stringWritableType : WritableType (List Nat) where
  write := write_string_type_code
  size := fun s => s.length + 5

/-- Modelled from the spec: the Decodable impl for String packaged as a
ReadableType capability. -/
def stringReadableType : ReadableType (List Nat) where
  read := readString

theorem stringWritableType_agree (s : List Nat) :
    (stringWritableType.write s).length = stringWritableType.size s := by
  simp [stringWritableType, write_string_type_code]
  omega

/-- C1: for every CacheReq request value, in all variants, if every
contained key's and value's write emits exactly its reported size in
bytes, then the number of bytes emitted by CacheReq::write equals
CacheReq::size() exactly. -/
theorem cacheReq_write_size_agree {K V : Type}
    (wk : WritableType K) (wv : WritableType V)
    (hk : ∀ k, (wk.write k).length = wk.size k)
    (hv : ∀ v, (wv.write v).length = wv.size v)
    (req : CacheReq K V) :
    (writeCacheReq wk wv req).length = sizeCacheReq wk wv req := by
  have hpair : ∀ p : K × V, (wk.write p.1 ++ wv.write p.2).length
      = wk.size p.1 + wv.size p.2 := by
    intro p
    simp [hk, hv]
  have hmode : ∀ m : CachePeekMode, (writeU8 m.toU8).length = 1 := by
    intro m
    rfl
  cases req <;>
    simp [writeCacheReq, sizeCacheReq, CACHE_ID_MAGIC_BYTE_SIZE, hk, hv,
      writeList_length _ _ hk, writeList_length _ _ hpair,
      writeList_length _ _ hmode] <;>
    omega

/-- Witness for C1 at a concrete bulk request with string keys and values. -/
theorem cacheReq_write_size_agree_witness :
    (∀ s : List Nat, (stringWritableType.write s).length = stringWritableType.size s)
    ∧ (writeCacheReq stringWritableType stringWritableType
        (CacheReq.getAll 42 [[65], [66, 67]])).length
      = sizeCacheReq stringWritableType stringWritableType
        (CacheReq.getAll 42 [[65], [66, 67]]) :=
  ⟨stringWritableType_agree,
   cacheReq_write_size_agree stringWritableType stringWritableType
     stringWritableType_agree stringWritableType_agree
     (CacheReq.getAll 42 [[65], [66, 67]])⟩

/-- C6: every bulk request body carries a 4-byte count equal to the list
length immediately followed by exactly the encoded elements, with no
terminator byte: the four bulk-key variants share one encoding, put-all
and get-size follow the same 4-byte-count-then-elements scheme, the count
field is 4 bytes long, and it decodes back to the list's length. -/
theorem bulk_request_count_layout {K V : Type}
    (wk : WritableType K) (wv : WritableType V) (id : Int)
    (keys : List K) (pairs : List (K × V)) (modes : List CachePeekMode)
    (t : List Nat)
    (hkeys : keys.length < 2147483648)
    (hpairs : pairs.length < 2147483648)
    (hmodes : modes.length < 2147483648) :
    (writeCacheReq wk wv (CacheReq.getAll id keys)
        = writeI32 id ++ writeU8 MAGIC_BYTE ++ writeI32 keys.length
          ++ (keys.map wk.write).flatten)
    ∧ writeCacheReq wk wv (CacheReq.containsKeys id keys)
        = writeCacheReq wk wv (CacheReq.getAll id keys)
    ∧ writeCacheReq wk wv (CacheReq.clearKeys id keys)
        = writeCacheReq wk wv (CacheReq.getAll id keys)
    ∧ writeCacheReq wk wv (CacheReq.removeKeys id keys)
        = writeCacheReq wk wv (CacheReq.getAll id keys)
    ∧ writeCacheReq wk wv (CacheReq.putAll id pairs)
        = writeI32 id ++ writeU8 MAGIC_BYTE ++ writeI32 pairs.length
          ++ (pairs.map (fun p => wk.write p.1 ++ wv.write p.2)).flatten
    ∧ writeCacheReq wk wv (CacheReq.getSize id modes)
        = writeI32 id ++ writeU8 MAGIC_BYTE ++ writeI32 modes.length
          ++ (modes.map (fun m => writeU8 m.toU8)).flatten
    ∧ (writeI32 (keys.length : Int)).length = 4
    ∧ readI32 (writeI32 (keys.length : Int) ++ t) = .ok ((keys.length : Int), t)
    ∧ readI32 (writeI32 (pairs.length : Int) ++ t) = .ok ((pairs.length : Int), t)
    ∧ readI32 (writeI32 (modes.length : Int) ++ t) = .ok ((modes.length : Int), t) := by
  refine ⟨?_, rfl, rfl, rfl, ?_, ?_, writeI32_length _, ?_, ?_, ?_⟩
  · simp [writeCacheReq, writeList_eq_flatten_map]
  · simp [writeCacheReq, writeList_eq_flatten_map]
  · simp [writeCacheReq, writeList_eq_flatten_map]
  · exact readI32_writeI32 _ _ (by omega) (by omega)
  · exact readI32_writeI32 _ _ (by omega) (by omega)
  · exact readI32_writeI32 _ _ (by omega) (by omega)

/-- Witness for C6 at concrete two-element bulk requests. -/
theorem bulk_request_count_layout_witness :
    (([[65], [66]] : List (List Nat)).length < 2147483648
      ∧ ([([65], [66])] : List (List Nat × List Nat)).length < 2147483648
      ∧ ([CachePeekMode.primary] : List CachePeekMode).length < 2147483648)
    ∧ writeCacheReq stringWritableType stringWritableType
        (CacheReq.getAll 7 [[65], [66]])
      = writeI32 7 ++ writeU8 MAGIC_BYTE ++ writeI32 2
        ++ (([[65], [66]] : List (List Nat)).map stringWritableType.write).flatten :=
  ⟨⟨by decide, by decide, by decide⟩, by
    have h := bulk_request_count_layout stringWritableType stringWritableType 7
      [[65], [66]] [([65], [66])] [CachePeekMode.primary] []
      (by decide) (by decide) (by decide)
    exact h.1⟩

/-- C7: the scan-query request body after the cache id and flag byte is a
null filter marker, the page size as int32, the int32 value -1 as the
partition marker, and a local-only flag of false, in that order; the
partition field decodes to -1 and the flag decodes to false. -/
theorem query_scan_request_body {K V : Type}
    (wk : WritableType K) (wv : WritableType V) (id pgSz : Int) (t : List Nat)
    (h1 : -2147483648 ≤ pgSz) (h2 : pgSz < 2147483648) :
    writeCacheReq wk wv (CacheReq.queryScan id pgSz)
        = writeI32 id ++ writeU8 1 ++ writeNull ++ writeI32 pgSz
          ++ writeI32 (-1) ++ writeBool false
    ∧ writeNull = [TYPE_CODE_NULL]
    ∧ readI32 (writeI32 pgSz ++ t) = .ok (pgSz, t)
    ∧ readI32 (writeI32 (-1) ++ t) = .ok (-1, t)
    ∧ readBool (writeBool false ++ t) = .ok (false, t) :=
  ⟨rfl, rfl,
   readI32_writeI32 pgSz t h1 h2,
   readI32_writeI32 (-1) t (by omega) (by omega),
   readBool_writeBool false t⟩

/-- Witness for C7 at cache id 33 and page size 2. -/
theorem query_scan_request_body_witness :
    (-2147483648 ≤ (2 : Int) ∧ (2 : Int) < 2147483648)
    ∧ writeCacheReq stringWritableType stringWritableType
        (CacheReq.queryScan 33 2)
      = writeI32 33 ++ writeU8 1 ++ writeNull ++ writeI32 2
        ++ writeI32 (-1) ++ writeBool false :=
  ⟨⟨by decide, by decide⟩,
   (query_scan_request_body stringWritableType stringWritableType 33 2 []
     (by decide) (by decide)).1⟩

/-- A fixed request value as seen through the WriteableReq trait of the
crate: the bytes its write method emits and the size its size method
reports. -/
structure WriteableReq where
  write : List Nat
  size : Nat

/-- REQ_HEADER_SIZE_BYTES of src/ignite-rs/src/connection.rs line 23. -/
def REQ_HEADER_SIZE_BYTES : Int := 10

/-- The as-i32 cast of a usize value (two's complement wrap). -/
def toI32 (n : Nat) : Int := toSigned 32 (n % 4294967296)

/-- Connection::write_req_header of src/ignite-rs/src/connection.rs lines
122-131: int32 of payload_len as i32 plus 10, int16 op code, int64 zero
request id. -/
def Connection.write_req_header (payloadLen : Nat) (opCode : Int) : List Nat :=
  writeI32 (toI32 payloadLen + REQ_HEADER_SIZE_BYTES) ++ writeI16 opCode
    ++ writeI64 0

/-- The bytes put on the wire by the write half of Connection::send_safe
(src/ignite-rs/src/connection.rs lines 96-103): the header computed from
payload.size(), then the payload written by payload.write(). -/
def Connection.send_request_bytes (opCode : Int) (payload : WriteableReq) : List Nat :=
  Connection.write_req_header payload.size opCode ++ payload.write

/-- C2: for every request sent on a Session, the frame written is an int32
length field equal to the payload's size plus 10, then the int16 operation
code, then an int64 request id that is always zero, then the payload; the
length field decodes back to size plus 10 and the request-id field decodes
to 0. -/
theorem session_frame_header_spec (opCode : Int) (p : WriteableReq)
    (h : p.size + 10 < 2147483648) :
    Connection.send_request_bytes opCode p
        = writeI32 ((p.size : Int) + 10) ++ writeI16 opCode ++ writeI64 0
          ++ p.write
    ∧ readI32 (Connection.send_request_bytes opCode p)
        = .ok (((p.size : Int) + 10),
               writeI16 opCode ++ writeI64 0 ++ p.write)
    ∧ readI64 (writeI64 0 ++ p.write) = .ok (0, p.write) := by
  have hcast : toI32 p.size + REQ_HEADER_SIZE_BYTES = (p.size : Int) + 10 := by
    unfold toI32 toSigned REQ_HEADER_SIZE_BYTES
    have : p.size % 4294967296 = p.size := Nat.mod_eq_of_lt (by omega)
    rw [this]
    rw [if_pos (by push_cast; omega)]
  constructor
  · unfold Connection.send_request_bytes Connection.write_req_header
    rw [hcast]
  constructor
  · unfold Connection.send_request_bytes Connection.write_req_header
    rw [hcast]
    rw [List.append_assoc, List.append_assoc]
    exact readI32_writeI32 _ _ (by omega) (by omega)
  · exact readI64_writeI64 0 p.write (by omega) (by omega)

/-- Witness for C2 at the scan-query op code 2000 and a 15-byte payload. -/
theorem session_frame_header_spec_witness :
    ((15 : Nat) + 10 < 2147483648)
    ∧ Connection.send_request_bytes 2000 (WriteableReq.mk [1, 2, 3] 15)
      = writeI32 25 ++ writeI16 2000 ++ writeI64 0 ++ [1, 2, 3] :=
  ⟨by decide,
   (session_frame_header_spec 2000 (WriteableReq.mk [1, 2, 3] 15) (by decide)).1⟩

/-- RespFlag embeds the Flag enum of the protocol module as used by connection.rs: a response is a
success or a server-reported failure carrying the decoded message. -/
inductive RespFlag where
  | success
  | failure (err_msg : List Nat)
  deriving DecidableEq, Repr

/-- Result of running code that may also panic: Rust Result plus the
panic outcome of an unwrap on None. -/
inductive PanicOr (α : Type) where
  | ok (val : α)
  | err (e : IgniteError)
  | panic
  deriving DecidableEq, Repr

/-- Connection::read_resp_header of src/ignite-rs/src/connection.rs lines
134-147: read int32 length, int64 request id, int32 status; status 0 is
success; otherwise decode the error string and unwrap it — the unwrap
panics when the decoded message is the null marker (err_msg is None). -/
def Connection.read_resp_header (s : List Nat) : PanicOr (RespFlag × List Nat) :=
  match readI32 s with
  | .error e => .err e
  | .ok (_length, s1) =>
    match readI64 s1 with
    | .error e => .err e
    | .ok (_req_id, s2) =>
      match readI32 s2 with
      | .error e => .err e
      | .ok (status, s3) =>
        if status = 0 then .ok (RespFlag.success, s3)
        else
          match readString s3 with
          | .error e => .err e
          | .ok (none, _) => .panic
          | .ok (some msg, s4) => .ok (RespFlag.failure msg, s4)

/-- The read half of Connection::send_safe (src/ignite-rs/src/connection.rs
lines 106-109): a success flag yields the remaining stream, a failure flag
yields an error built from the server's message. -/
def Connection.send_safe_read (s : List Nat) : PanicOr (List Nat) :=
  match Connection.read_resp_header s with
  | .panic => .panic
  | .err e => .err e
  | .ok (RespFlag.success, rest) => .ok rest
  | .ok (RespFlag.failure msg, _) => .err (.customOfBytes msg)

/-- Counterexample to C3 as stated: a response with nonzero status whose
error-message slot holds the null marker makes the session panic
(err_msg.unwrap() on None), not return a typed failure result. -/
theorem send_safe_read_panics_on_null_error_msg :
    Connection.send_safe_read
      (writeI32 20 ++ writeI64 0 ++ writeI32 1 ++ writeNull)
      = PanicOr.panic := by decide

/-- C3 amended: for every response whose status code is nonzero and whose
error message decodes as a non-null string, the session reads the server's
UTF-8 message and returns a failure result carrying it; for every response
whose status code is zero it returns success with the remaining stream. -/
theorem send_safe_read_status_dispatch
    (len reqId status : Int) (msg rest : List Nat)
    (hlen1 : -2147483648 ≤ len) (hlen2 : len < 2147483648)
    (hrid1 : -9223372036854775808 ≤ reqId)
    (hrid2 : reqId < 9223372036854775808)
    (hst1 : -2147483648 ≤ status) (hst2 : status < 2147483648)
    (hmsg : msg.length < 2147483648) :
    (status ≠ 0 →
      Connection.send_safe_read
        (writeI32 len ++ writeI64 reqId ++ writeI32 status
          ++ write_string_type_code msg ++ rest)
        = PanicOr.err (IgniteError.customOfBytes msg))
    ∧ Connection.send_safe_read
        (writeI32 len ++ writeI64 reqId ++ writeI32 0 ++ rest)
        = PanicOr.ok rest := by
  constructor
  · intro hne
    unfold Connection.send_safe_read Connection.read_resp_header
    rw [List.append_assoc, List.append_assoc, List.append_assoc]
    simp only [readI32_writeI32 len _ hlen1 hlen2,
      readI64_writeI64 reqId _ hrid1 hrid2,
      readI32_writeI32 status _ hst1 hst2,
      readString_write_string_type_code msg rest hmsg,
      if_neg hne]
  · unfold Connection.send_safe_read Connection.read_resp_header
    rw [List.append_assoc, List.append_assoc]
    simp only [readI32_writeI32 len _ hlen1 hlen2,
      readI64_writeI64 reqId _ hrid1 hrid2,
      readI32_writeI32 0 _ (by omega) (by omega),
      if_pos rfl, if_true]

/-- Witness for the amended C3 at status 1 and the two-byte message "ok". -/
theorem send_safe_read_status_dispatch_witness :
    ((1 : Int) ≠ 0)
    ∧ Connection.send_safe_read
        (writeI32 16 ++ writeI64 0 ++ writeI32 1
          ++ write_string_type_code [111, 107] ++ [])
        = PanicOr.err (IgniteError.customOfBytes [111, 107]) :=
  ⟨by decide,
   (send_safe_read_status_dispatch 16 0 1 [111, 107] []
      (by decide) (by decide) (by decide) (by decide) (by decide) (by decide)
      (by decide)).1 (by decide)⟩

/-- One iteration of the pair-decoding loops of CachePairsResp::read and
QueryScanResp::read (src/ignite-rs/src/api/key_value.rs lines 280-284 and
298-302): decode a key, then a value. -/
def readPairElem (rk : ReadableType K) (rv : ReadableType V) (s : List Nat) :
    Except IgniteError ((Option K × Option V) × List Nat) :=
  match rk.read s with
  | .error e => .error e
  | .ok (key, s1) =>
    match rv.read s1 with
    | .error e => .error e
    | .ok (val, s2) => .ok ((key, val), s2)

/-- The for-loop of CachePairsResp::read and QueryScanResp::read: decode
the given number of pairs in stream order. -/
def readPairsLoop (rk : ReadableType K) (rv : ReadableType V) :
    Nat → List Nat → Except IgniteError (List (Option K × Option V) × List Nat)
  | 0, s => .ok ([], s)
  | n + 1, s =>
    match readPairElem rk rv s with
    | .error e => .error e
    | .ok (pair, s1) =>
      match readPairsLoop rk rv n s1 with
      | .error e => .error e
      | .ok (pairs, s2) => .ok (pair :: pairs, s2)

/-- CachePairsResp::read of src/ignite-rs/src/api/key_value.rs lines
276-287: a 4-byte count then that many (key, value) pairs. The Rust
for-loop over 0..count runs zero times when count is not positive, which
Int.toNat mirrors. The returned struct's val field is the pair list; the
unconsumed stream is also returned for compositional statements. -/
def CachePairsResp.read (rk : ReadableType K) (rv : ReadableType V)
    (s : List Nat) :
    Except IgniteError (List (Option K × Option V) × List Nat) :=
  match readI32 s with
  | .error e => .error e
  | .ok (count, s1) => readPairsLoop rk rv count.toNat s1

/-- QueryScanResp::read of src/ignite-rs/src/api/key_value.rs lines
293-306: cursor id (discarded), count, pairs, then the more flag, which is
read and discarded (the _more binding under the TODO comment). -/
def QueryScanResp.read (rk : ReadableType K) (rv : ReadableType V)
    (s : List Nat) :
    Except IgniteError (List (Option K × Option V) × List Nat) :=
  match readI64 s with
  | .error e => .error e
  | .ok (_cursor_id, s1) =>
    match readI32 s1 with
    | .error e => .error e
    | .ok (count, s2) =>
      match readPairsLoop rk rv count.toNat s2 with
      | .error e => .error e
      | .ok (pairs, s3) =>
        match readBool s3 with
        | .error e => .error e
        | .ok (_more, s4) => .ok (pairs, s4)

/-- Cache::query_scan of src/ignite-rs/src/cache.rs lines 299-306 as a
function of the response stream: send_and_read processes the response
header via send_safe, hands the rest to QueryScanResp::read, and the val
field of the parsed response is returned; its type carries no more flag. -/
def Cache.query_scan (rk : ReadableType K) (rv : ReadableType V)
    (resp : List Nat) : PanicOr (List (Option K × Option V)) :=
  match Connection.send_safe_read resp with
  | .panic => .panic
  | .err e => .err e
  | .ok payload =>
    match QueryScanResp.read rk rv payload with
    | .error e => .err e
    | .ok (pairs, _) => .ok pairs

theorem readPairsLoop_length (rk : ReadableType K) (rv : ReadableType V) :
    ∀ (n : Nat) (s : List Nat) pairs s1,
      readPairsLoop rk rv n s = .ok (pairs, s1) → pairs.length = n := by
  intro n
  induction n with
  | zero =>
    intro s pairs s1 h
    simp [readPairsLoop] at h
    simp [h.1]
  | succ m ih =>
    intro s pairs s1 h
    unfold readPairsLoop at h
    cases he : readPairElem rk rv s with
    | error e => rw [he] at h; exact absurd h (by simp)
    | ok pr =>
      rw [he] at h
      cases hl : readPairsLoop rk rv m pr.2 with
      | error e => simp [hl] at h
      | ok pl =>
        simp [hl] at h
        rcases h with ⟨h1, _⟩
        rw [← h1]
        simp [ih pr.2 pl.1 pl.2 (by rw [hl])]

theorem readPairsLoop_error_propagates (rk : ReadableType K)
    (rv : ReadableType V) :
    ∀ (i : Nat) (n : Nat) (s : List Nat) donePairs s1 e,
      readPairsLoop rk rv i s = .ok (donePairs, s1) →
      readPairElem rk rv s1 = .error e →
      i < n →
      readPairsLoop rk rv n s = .error e := by
  intro i
  induction i with
  | zero =>
    intro n s donePairs s1 e hpre helem hlt
    simp [readPairsLoop] at hpre
    obtain ⟨m, rfl⟩ : ∃ m, n = m + 1 := ⟨n - 1, by omega⟩
    unfold readPairsLoop
    rw [← hpre.2] at helem
    rw [helem]
  | succ j ih =>
    intro n s donePairs s1 e hpre helem hlt
    obtain ⟨m, rfl⟩ : ∃ m, n = m + 1 := ⟨n - 1, by omega⟩
    unfold readPairsLoop at hpre ⊢
    cases he : readPairElem rk rv s with
    | error e2 => simp [he] at hpre
    | ok pr =>
      obtain ⟨pair, s2⟩ := pr
      simp only [he] at hpre ⊢
      cases hl : readPairsLoop rk rv j s2 with
      | error e2 => simp [hl] at hpre
      | ok pl =>
        obtain ⟨pairs2, s3⟩ := pl
        simp only [hl, Except.ok.injEq, Prod.mk.injEq] at hpre
        rw [ih m s2 pairs2 s1 e (by rw [hl, hpre.2]) helem (by omega)]

/-- C5: for every bulk response, decoding is all-or-nothing: a successful
CachePairsResp/QueryScanResp-style pair loop returns exactly as many pairs
as requested, and if the decode of some element's key or value pair fails
after a successfully decoded prefix, both CachePairsResp::read and
QueryScanResp::read return that error and no partial list. -/
theorem bulk_read_aborts_on_element_error {K V : Type}
    (rk : ReadableType K) (rv : ReadableType V) :
    (∀ (n : Nat) (s : List Nat) pairs s1,
      readPairsLoop rk rv n s = .ok (pairs, s1) → pairs.length = n)
    ∧ (∀ (count : Int) (body : List Nat) (i : Nat) donePairs s1 e,
        0 ≤ count → count < 2147483648 →
        readPairsLoop rk rv i body = .ok (donePairs, s1) →
        readPairElem rk rv s1 = .error e →
        i < count.toNat →
        CachePairsResp.read rk rv (writeI32 count ++ body) = .error e
        ∧ ∀ cursorId : Int,
            -9223372036854775808 ≤ cursorId →
            cursorId < 9223372036854775808 →
            QueryScanResp.read rk rv
              (writeI64 cursorId ++ writeI32 count ++ body) = .error e) := by
  constructor
  · exact readPairsLoop_length rk rv
  · intro count body i donePairs s1 e hc1 hc2 hpre helem hlt
    have hloop : readPairsLoop rk rv count.toNat body = .error e :=
      readPairsLoop_error_propagates rk rv i count.toNat body donePairs s1 e
        hpre helem hlt
    constructor
    · unfold CachePairsResp.read
      rw [readI32_writeI32 count _ (by omega) (by omega)]
      exact hloop
    · intro cursorId hcu1 hcu2
      unfold QueryScanResp.read
      rw [List.append_assoc]
      simp only [readI64_writeI64 cursorId _ hcu1 hcu2,
        readI32_writeI32 count _ (by omega) (by omega), hloop]

/-- Witness for C5 with string pairs: count 2, one good pair, then an
element whose type code 7 is neither null nor string, so its decode fails;
the whole call returns that error. -/
theorem bulk_read_aborts_on_element_error_witness :
    (0 ≤ (2 : Int) ∧ (2 : Int) < 2147483648
      ∧ readPairsLoop stringReadableType stringReadableType 1
          (write_string_type_code [65] ++ write_string_type_code [66] ++ [7])
          = .ok ([(some [65], some [66])], [7])
      ∧ readPairElem stringReadableType stringReadableType [7]
          = .error (.custom "unexpected type code")
      ∧ 1 < (2 : Int).toNat)
    ∧ CachePairsResp.read stringReadableType stringReadableType
        (writeI32 2 ++ (write_string_type_code [65]
          ++ write_string_type_code [66] ++ [7]))
        = .error (.custom "unexpected type code") :=
  ⟨⟨by decide, by decide, by rfl, by rfl, by decide⟩,
   ((bulk_read_aborts_on_element_error stringReadableType stringReadableType).2
      2 (write_string_type_code [65] ++ write_string_type_code [66] ++ [7])
      1 [(some [65], some [66])] [7] (.custom "unexpected type code")
      (by decide) (by decide) (by rfl) (by rfl) (by decide)).1⟩

theorem send_safe_read_success (len reqId : Int) (rest : List Nat)
    (hlen1 : -2147483648 ≤ len) (hlen2 : len < 2147483648)
    (hrid1 : -9223372036854775808 ≤ reqId)
    (hrid2 : reqId < 9223372036854775808) :
    Connection.send_safe_read (writeI32 len ++ writeI64 reqId ++ writeI32 0 ++ rest)
      = PanicOr.ok rest := by
  unfold Connection.send_safe_read Connection.read_resp_header
  rw [List.append_assoc, List.append_assoc]
  simp only [readI32_writeI32 len _ hlen1 hlen2,
    readI64_writeI64 reqId _ hrid1 hrid2,
    readI32_writeI32 0 _ (by omega) (by omega),
    if_pos rfl, if_true]

/-- A complete success response to a scan query holding the first cursor
page of a 5-entry cache read with page size 2: cursor id 7, count 2, two
string pairs, then the more flag byte (the page is not the last one, so
the server sends true). -/
def c4ScanResp (more : Bool) : List Nat :=
  writeI32 0 ++ writeI64 0 ++ writeI32 0 ++ writeI64 7 ++ writeI32 2
    ++ write_string_type_code [65] ++ write_string_type_code [66]
    ++ write_string_type_code [67] ++ write_string_type_code [68]
    ++ writeBool more

/-- Counterexample to C4 as stated: on the first page of a scan with page
size 2 and 5 entries, query_scan returns the 2 decoded pairs but does not
surface the more flag: its result is a bare pair list, and it is
byte-for-byte identical whether the server's more flag is true or false,
so no more-flag of true reaches the caller. -/
theorem query_scan_more_flag_not_surfaced :
    Cache.query_scan stringReadableType stringReadableType (c4ScanResp true)
      = PanicOr.ok [(some [65], some [66]), (some [67], some [68])]
    ∧ Cache.query_scan stringReadableType stringReadableType (c4ScanResp false)
      = Cache.query_scan stringReadableType stringReadableType (c4ScanResp true) := by
  constructor <;> rfl

/-- C4 amended: a query_scan call whose first cursor page decodes as count
pairs returns exactly those pairs; the more flag is read from the stream
but discarded, so the result is the same for either value of the flag and
the flag is not surfaced (only query_scan_dyn returns it). -/
theorem query_scan_first_page {K V : Type}
    (rk : ReadableType K) (rv : ReadableType V)
    (len reqId cursorId count : Int) (pairsBytes rest : List Nat)
    (pairs : List (Option K × Option V)) (b : Bool)
    (hlen1 : -2147483648 ≤ len) (hlen2 : len < 2147483648)
    (hrid1 : -9223372036854775808 ≤ reqId)
    (hrid2 : reqId < 9223372036854775808)
    (hcu1 : -9223372036854775808 ≤ cursorId)
    (hcu2 : cursorId < 9223372036854775808)
    (hc1 : -2147483648 ≤ count) (hc2 : count < 2147483648)
    (hpairs : readPairsLoop rk rv count.toNat (pairsBytes ++ (writeBool b ++ rest))
        = .ok (pairs, writeBool b ++ rest)) :
    Cache.query_scan rk rv
      (writeI32 len ++ writeI64 reqId ++ writeI32 0
        ++ (writeI64 cursorId ++ writeI32 count ++ pairsBytes
            ++ (writeBool b ++ rest)))
      = PanicOr.ok pairs
    ∧ pairs.length = count.toNat := by
  have hpay : QueryScanResp.read rk rv
      (writeI64 cursorId ++ writeI32 count ++ pairsBytes ++ (writeBool b ++ rest))
      = .ok (pairs, rest) := by
    unfold QueryScanResp.read
    rw [List.append_assoc, List.append_assoc]
    simp only [readI64_writeI64 cursorId _ hcu1 hcu2,
      readI32_writeI32 count _ hc1 hc2, hpairs, readBool_writeBool]
  constructor
  · unfold Cache.query_scan
    simp only [send_safe_read_success len reqId _ hlen1 hlen2 hrid1 hrid2, hpay]
  · exact readPairsLoop_length rk rv count.toNat _ pairs _ hpairs

/-- Witness for the amended C4 at the concrete first page of c4ScanResp
with the more flag set. -/
theorem query_scan_first_page_witness :
    readPairsLoop stringReadableType stringReadableType (2 : Int).toNat
        (write_string_type_code [65] ++ write_string_type_code [66]
          ++ write_string_type_code [67] ++ write_string_type_code [68]
          ++ (writeBool true ++ []))
      = .ok ([(some [65], some [66]), (some [67], some [68])], writeBool true ++ [])
    ∧ Cache.query_scan stringReadableType stringReadableType
        (writeI32 0 ++ writeI64 0 ++ writeI32 0
          ++ (writeI64 7 ++ writeI32 2
              ++ (write_string_type_code [65] ++ write_string_type_code [66]
                ++ write_string_type_code [67] ++ write_string_type_code [68])
              ++ (writeBool true ++ [])))
      = PanicOr.ok [(some [65], some [66]), (some [67], some [68])] :=
  ⟨by rfl,
   (query_scan_first_page stringReadableType stringReadableType 0 0 7 2
      (write_string_type_code [65] ++ write_string_type_code [66]
        ++ write_string_type_code [67] ++ write_string_type_code [68]) []
      [(some [65], some [66]), (some [67], some [68])] true
      (by decide) (by decide) (by decide) (by decide) (by decide) (by decide)
      (by decide) (by decide) (by rfl)).1⟩

/-- Cache::query_scan_dyn of src/ignite-rs/src/cache.rs lines 328-348 as a
function of the response stream. Connection::send_and_read_dyn (lines
79-89 of connection.rs) runs send_safe, then hands the still-locked stream
to the closure; the closure reads the cursor id (int64) and the element
count (int32), calls the caller-supplied consumer with the stream and the
count, then reads the more flag and stores it; query_scan_dyn returns the
stored flag. The consumer is modelled as a function from the stream and
the count to the stream it leaves behind. In this sequential model the
closure has run whenever send_and_read_dyn succeeds, so the stored flag is
present and the "Callback not invoked!" branch is unreachable. -/
def Cache.query_scan_dyn
    (cb : List Nat → Int → Except IgniteError (List Nat))
    (resp : List Nat) : PanicOr Bool :=
  match Connection.send_safe_read resp with
  | .panic => .panic
  | .err e => .err e
  | .ok payload =>
    match readI64 payload with
    | .error e => .err e
    | .ok (_cursor_id, s1) =>
      match readI32 s1 with
      | .error e => .err e
      | .ok (count, s2) =>
        match cb s2 count with
        | .error e => .err e
        | .ok s3 =>
          match readBool s3 with
          | .error e => .err e
          | .ok (more, _) => .ok more

/-- C8: on a successful round trip, query_scan_dyn hands the stream to the
caller-supplied consumer exactly after the cursor id (int64) and element
count (int32) have been read — the consumer sees the bytes following those
two fields together with the decoded count — and after the consumer
returns, the more flag is read from the stream the consumer left and is
returned as the call's result (an error while reading it is the call's
error). -/
theorem query_scan_dyn_stream_order
    (cb : List Nat → Int → Except IgniteError (List Nat))
    (len reqId cursorId count : Int) (body target : List Nat)
    (hlen1 : -2147483648 ≤ len) (hlen2 : len < 2147483648)
    (hrid1 : -9223372036854775808 ≤ reqId)
    (hrid2 : reqId < 9223372036854775808)
    (hcu1 : -9223372036854775808 ≤ cursorId)
    (hcu2 : cursorId < 9223372036854775808)
    (hc1 : -2147483648 ≤ count) (hc2 : count < 2147483648)
    (hcb : cb body count = .ok target) :
    (∀ (more : Bool) s4, readBool target = .ok (more, s4) →
      Cache.query_scan_dyn cb
        (writeI32 len ++ writeI64 reqId ++ writeI32 0
          ++ (writeI64 cursorId ++ writeI32 count ++ body))
        = PanicOr.ok more)
    ∧ (∀ e, readBool target = .error e →
        Cache.query_scan_dyn cb
          (writeI32 len ++ writeI64 reqId ++ writeI32 0
            ++ (writeI64 cursorId ++ writeI32 count ++ body))
          = PanicOr.err e) := by
  have hbase :
      ∀ r, readBool target = r →
      Cache.query_scan_dyn cb
        (writeI32 len ++ writeI64 reqId ++ writeI32 0
          ++ (writeI64 cursorId ++ writeI32 count ++ body))
        = (match r with
           | .error e => PanicOr.err e
           | .ok (more, _) => PanicOr.ok more) := by
    intro r hr
    unfold Cache.query_scan_dyn
    rw [send_safe_read_success len reqId _ hlen1 hlen2 hrid1 hrid2]
    rw [List.append_assoc]
    simp only [readI64_writeI64 cursorId _ hcu1 hcu2,
      readI32_writeI32 count _ hc1 hc2, hcb, hr]
  constructor
  · intro more s4 hr
    rw [hbase _ hr]
  · intro e hr
    rw [hbase _ hr]

/-- Witness for C8 with a consumer that drains two pair encodings and a
stream whose trailing more flag is true. -/
theorem query_scan_dyn_stream_order_witness :
    ((fun (s : List Nat) (_ : Int) =>
        (Except.ok (s.drop 12) : Except IgniteError (List Nat)))
        (write_string_type_code [65] ++ write_string_type_code [66]
          ++ writeBool true) 2
      = .ok (writeBool true)
    ∧ readBool (writeBool true) = .ok (true, []))
    ∧ Cache.query_scan_dyn
        (fun s _ => .ok (s.drop 12))
        (writeI32 0 ++ writeI64 0 ++ writeI32 0
          ++ (writeI64 7 ++ writeI32 2
              ++ (write_string_type_code [65] ++ write_string_type_code [66]
                ++ writeBool true)))
      = PanicOr.ok true :=
  ⟨⟨by rfl, by rfl⟩,
   (query_scan_dyn_stream_order (fun s _ => .ok (s.drop 12)) 0 0 7 2
      (write_string_type_code [65] ++ write_string_type_code [66]
        ++ writeBool true) (writeBool true)
      (by decide) (by decide) (by decide) (by decide) (by decide) (by decide)
      (by decide) (by decide) (by rfl)).1 true [] (by rfl)⟩

/-- The for-loop of CacheGetNamesResp::read
(src/ignite-rs/src/api/cache_config.rs lines 91-96): decode the given
number of strings in stream order; a null marker aborts the whole loop
with the "NULL is not expected" error. -/
def readNamesLoop : Nat → List Nat → Except IgniteError (List (List Nat) × List Nat)
  | 0, s => .ok ([], s)
  | n + 1, s =>
    match readString s with
    | .error e => .error e
    | .ok (none, _) => .error (.custom "NULL is not expected")
    | .ok (some nm, s1) =>
      match readNamesLoop n s1 with
      | .error e => .error e
      | .ok (names, s2) => .ok (nm :: names, s2)

/-- CacheGetNamesResp::read of src/ignite-rs/src/api/cache_config.rs lines
85-100: a 4-byte cache count, then that many decoded names. -/
def CacheGetNamesResp.read (s : List Nat) :
    Except IgniteError (List (List Nat) × List Nat) :=
  match readI32 s with
  | .error e => .error e
  | .ok (count, s1) => readNamesLoop count.toNat s1

theorem readNamesLoop_roundtrip :
    ∀ (names : List (List Nat)) (rest : List Nat),
      (∀ nm ∈ names, nm.length < 2147483648) →
      readNamesLoop names.length (writeList write_string_type_code names ++ rest)
        = .ok (names, rest) := by
  intro names
  induction names with
  | nil =>
    intro rest _
    simp [writeList, readNamesLoop]
  | cons nm t ih =>
    intro rest h
    simp only [writeList, List.length_cons, List.append_assoc]
    unfold readNamesLoop
    simp only [readString_write_string_type_code nm _ (h nm (by simp)),
      ih rest (fun x hx => h x (by simp [hx]))]

theorem readNamesLoop_null_aborts :
    ∀ (i n : Nat) (s : List Nat) doneNames s1 s2,
      readNamesLoop i s = .ok (doneNames, s1) →
      readString s1 = .ok (none, s2) →
      i < n →
      readNamesLoop n s = .error (.custom "NULL is not expected") := by
  intro i
  induction i with
  | zero =>
    intro n s doneNames s1 s2 hpre hnull hlt
    simp [readNamesLoop] at hpre
    obtain ⟨m, rfl⟩ : ∃ m, n = m + 1 := ⟨n - 1, by omega⟩
    unfold readNamesLoop
    rw [← hpre.2] at hnull
    rw [hnull]
  | succ j ih =>
    intro n s doneNames s1 s2 hpre hnull hlt
    obtain ⟨m, rfl⟩ : ∃ m, n = m + 1 := ⟨n - 1, by omega⟩
    unfold readNamesLoop at hpre ⊢
    cases he : readString s with
    | error e2 => simp [he] at hpre
    | ok pr =>
      obtain ⟨onm, s3⟩ := pr
      cases onm with
      | none => simp [he] at hpre
      | some nm =>
        simp only [he] at hpre ⊢
        cases hl : readNamesLoop j s3 with
        | error e2 => simp [hl] at hpre
        | ok pl =>
          obtain ⟨ns, s4⟩ := pl
          simp only [hl, Except.ok.injEq, Prod.mk.injEq] at hpre
          rw [ih m s3 ns s1 s2 (by rw [hl, hpre.2]) hnull (by omega)]

/-- C9: decoding a cache-names response reads a 4-byte count and then
exactly that many strings in stream order — on success the returned list
is exactly the encoded name list — and if any decoded name is the null
marker, after any prefix of well-formed names, the whole call returns the
"NULL is not expected" error and no list. -/
theorem cache_get_names_read_spec :
    (∀ (names : List (List Nat)) (rest : List Nat),
      names.length < 2147483648 →
      (∀ nm ∈ names, nm.length < 2147483648) →
      CacheGetNamesResp.read
          (writeI32 names.length ++ (writeList write_string_type_code names ++ rest))
        = .ok (names, rest))
    ∧ (∀ (count : Int) (body : List Nat) (i : Nat) doneNames s1 s2,
        0 ≤ count → count < 2147483648 →
        readNamesLoop i body = .ok (doneNames, s1) →
        readString s1 = .ok (none, s2) →
        i < count.toNat →
        CacheGetNamesResp.read (writeI32 count ++ body)
          = .error (.custom "NULL is not expected")) := by
  constructor
  · intro names rest hcount hlens
    unfold CacheGetNamesResp.read
    rw [readI32_writeI32 (names.length : Int) _ (by omega) (by omega)]
    simp only [Int.toNat_natCast]
    exact readNamesLoop_roundtrip names rest hlens
  · intro count body i doneNames s1 s2 hc1 hc2 hpre hnull hlt
    unfold CacheGetNamesResp.read
    rw [readI32_writeI32 count _ (by omega) (by omega)]
    exact readNamesLoop_null_aborts i count.toNat body doneNames s1 s2
      hpre hnull hlt

/-- Witness for C9: a two-name roundtrip, and a count-2 stream whose
second name is the null marker aborting with the error. -/
theorem cache_get_names_read_spec_witness :
    (CacheGetNamesResp.read
        (writeI32 2 ++ (writeList write_string_type_code [[72], [73]] ++ []))
      = .ok ([[72], [73]], []))
    ∧ CacheGetNamesResp.read
        (writeI32 2 ++ (write_string_type_code [72] ++ writeNull))
      = .error (.custom "NULL is not expected") :=
  ⟨by
    have h := cache_get_names_read_spec.1 [[72], [73]] [] (by decide)
      (by intro nm hnm; fin_cases hnm <;> decide)
    simpa using h,
   cache_get_names_read_spec.2 2 (write_string_type_code [72] ++ writeNull)
     1 [[72]] writeNull [] (by decide) (by decide) (by rfl) (by rfl)
     (by decide)⟩

/-- AtomicityMode of src/ignite-rs/src/cache.rs lines 25-28. -/
inductive AtomicityMode where
  | transactional
  | atomic
  deriving DecidableEq, Repr

/-- The i32 discriminant of AtomicityMode (the explicit values in the
Rust enum declaration). -/
def AtomicityMode.toInt : AtomicityMode → Int
  | .transactional => 0
  | .atomic => 1

/-- TryFrom of i32 for AtomicityMode, src/ignite-rs/src/cache.rs lines
30-40. -/
def AtomicityMode.try_from (value : Int) : Except IgniteError AtomicityMode :=
  if value = 0 then .ok .transactional
  else if value = 1 then .ok .atomic
  else .error (.custom "Cannot read AtomicityMode")

/-- CacheMode of src/ignite-rs/src/cache.rs lines 43-47. -/
inductive CacheMode where
  | localMode
  | replicated
  | partitioned
  deriving DecidableEq, Repr

/-- The i32 discriminant of CacheMode. -/
def CacheMode.toInt : CacheMode → Int
  | .localMode => 0
  | .replicated => 1
  | .partitioned => 2

/-- TryFrom of i32 for CacheMode, src/ignite-rs/src/cache.rs lines 49-60. -/
def CacheMode.try_from (value : Int) : Except IgniteError CacheMode :=
  if value = 0 then .ok .localMode
  else if value = 1 then .ok .replicated
  else if value = 2 then .ok .partitioned
  else .error (.custom "Cannot read CacheMode")

/-- PartitionLossPolicy of src/ignite-rs/src/cache.rs lines 63-69. -/
inductive PartitionLossPolicy where
  | readOnlySafe
  | readOnlyAll
  | readWriteSafe
  | readWriteAll
  | ignorePolicy
  deriving DecidableEq, Repr

/-- The i32 discriminant of PartitionLossPolicy. -/
def PartitionLossPolicy.toInt : PartitionLossPolicy → Int
  | .readOnlySafe => 0
  | .readOnlyAll => 1
  | .readWriteSafe => 2
  | .readWriteAll => 3
  | .ignorePolicy => 4

/-- TryFrom of i32 for PartitionLossPolicy, src/ignite-rs/src/cache.rs
lines 71-84. -/
def PartitionLossPolicy.try_from (value : Int) : Except IgniteError PartitionLossPolicy :=
  if value = 0 then .ok .readOnlySafe
  else if value = 1 then .ok .readOnlyAll
  else if value = 2 then .ok .readWriteSafe
  else if value = 3 then .ok .readWriteAll
  else if value = 4 then .ok .ignorePolicy
  else .error (.custom "Cannot read PartitionLossPolicy")

/-- RebalanceMode of src/ignite-rs/src/cache.rs lines 87-91. -/
inductive RebalanceMode where
  | syncMode
  | asyncMode
  | noneMode
  deriving DecidableEq, Repr

/-- The i32 discriminant of RebalanceMode. -/
def RebalanceMode.toInt : RebalanceMode → Int
  | .syncMode => 0
  | .asyncMode => 1
  | .noneMode => 2

/-- TryFrom of i32 for RebalanceMode, src/ignite-rs/src/cache.rs lines
93-104. -/
def RebalanceMode.try_from (value : Int) : Except IgniteError RebalanceMode :=
  if value = 0 then .ok .syncMode
  else if value = 1 then .ok .asyncMode
  else if value = 2 then .ok .noneMode
  else .error (.custom "Cannot read RebalanceMode")

/-- WriteSynchronizationMode of src/ignite-rs/src/cache.rs lines 107-111. -/
inductive WriteSynchronizationMode where
  | fullSync
  | fullAsync
  | primarySync
  deriving DecidableEq, Repr

/-- The i32 discriminant of WriteSynchronizationMode. -/
def WriteSynchronizationMode.toInt : WriteSynchronizationMode → Int
  | .fullSync => 0
  | .fullAsync => 1
  | .primarySync => 2

/-- TryFrom of i32 for WriteSynchronizationMode, src/ignite-rs/src/cache.rs
lines 113-124. -/
def WriteSynchronizationMode.try_from (value : Int) :
    Except IgniteError WriteSynchronizationMode :=
  if value = 0 then .ok .fullSync
  else if value = 1 then .ok .fullAsync
  else if value = 2 then .ok .primarySync
  else .error (.custom "Cannot read WriteSynchronizationMode")

/-- IndexType of src/ignite-rs/src/cache.rs lines 141-145. -/
inductive IndexType where
  | sorted
  | fulltext
  | geoSpatial
  deriving DecidableEq, Repr

/-- The u8 discriminant of IndexType. -/
def IndexType.toU8 : IndexType → Nat
  | .sorted => 0
  | .fulltext => 1
  | .geoSpatial => 2

/-- TryFrom of u8 for IndexType, src/ignite-rs/src/cache.rs lines 147-158. -/
def IndexType.try_from (value : Nat) : Except IgniteError IndexType :=
  if value = 0 then .ok .sorted
  else if value = 1 then .ok .fulltext
  else if value = 2 then .ok .geoSpatial
  else .error (.custom "Cannot read IndexType")

/-- C10: for every cache-configuration enum, converting a variant to its
integer discriminant and back through try_from yields the same variant,
and try_from on any integer outside the variant range (any u8 above 2 for
IndexType) returns the corresponding error. -/
theorem config_enum_try_from_spec :
    (∀ e : AtomicityMode, AtomicityMode.try_from e.toInt = .ok e)
    ∧ (∀ n : Int, n < 0 ∨ 1 < n →
        AtomicityMode.try_from n = .error (.custom "Cannot read AtomicityMode"))
    ∧ (∀ e : CacheMode, CacheMode.try_from e.toInt = .ok e)
    ∧ (∀ n : Int, n < 0 ∨ 2 < n →
        CacheMode.try_from n = .error (.custom "Cannot read CacheMode"))
    ∧ (∀ e : PartitionLossPolicy, PartitionLossPolicy.try_from e.toInt = .ok e)
    ∧ (∀ n : Int, n < 0 ∨ 4 < n →
        PartitionLossPolicy.try_from n
          = .error (.custom "Cannot read PartitionLossPolicy"))
    ∧ (∀ e : RebalanceMode, RebalanceMode.try_from e.toInt = .ok e)
    ∧ (∀ n : Int, n < 0 ∨ 2 < n →
        RebalanceMode.try_from n = .error (.custom "Cannot read RebalanceMode"))
    ∧ (∀ e : WriteSynchronizationMode,
        WriteSynchronizationMode.try_from e.toInt = .ok e)
    ∧ (∀ n : Int, n < 0 ∨ 2 < n →
        WriteSynchronizationMode.try_from n
          = .error (.custom "Cannot read WriteSynchronizationMode"))
    ∧ (∀ e : IndexType, IndexType.try_from e.toU8 = .ok e)
    ∧ (∀ n : Nat, n < 256 → 2 < n →
        IndexType.try_from n = .error (.custom "Cannot read IndexType")) := by
  refine ⟨?_, ?_, ?_, ?_, ?_, ?_, ?_, ?_, ?_, ?_, ?_, ?_⟩
  · intro e; cases e <;> rfl
  · intro n hn
    unfold AtomicityMode.try_from
    rw [if_neg (by omega), if_neg (by omega)]
  · intro e; cases e <;> rfl
  · intro n hn
    unfold CacheMode.try_from
    rw [if_neg (by omega), if_neg (by omega), if_neg (by omega)]
  · intro e; cases e <;> rfl
  · intro n hn
    unfold PartitionLossPolicy.try_from
    rw [if_neg (by omega), if_neg (by omega), if_neg (by omega),
      if_neg (by omega), if_neg (by omega)]
  · intro e; cases e <;> rfl
  · intro n hn
    unfold RebalanceMode.try_from
    rw [if_neg (by omega), if_neg (by omega), if_neg (by omega)]
  · intro e; cases e <;> rfl
  · intro n hn
    unfold WriteSynchronizationMode.try_from
    rw [if_neg (by omega), if_neg (by omega), if_neg (by omega)]
  · intro e; cases e <;> rfl
  · intro n h256 hn
    unfold IndexType.try_from
    rw [if_neg (by omega), if_neg (by omega), if_neg (by omega)]

/-- Witness for C10: each out-of-range conjunct applied at a concrete
integer, together with one concrete roundtrip. -/
theorem config_enum_try_from_spec_witness :
    AtomicityMode.try_from AtomicityMode.atomic.toInt = .ok AtomicityMode.atomic
    ∧ AtomicityMode.try_from 5 = .error (.custom "Cannot read AtomicityMode")
    ∧ CacheMode.try_from (-1) = .error (.custom "Cannot read CacheMode")
    ∧ PartitionLossPolicy.try_from 9
        = .error (.custom "Cannot read PartitionLossPolicy")
    ∧ RebalanceMode.try_from 3 = .error (.custom "Cannot read RebalanceMode")
    ∧ WriteSynchronizationMode.try_from (-2)
        = .error (.custom "Cannot read WriteSynchronizationMode")
    ∧ IndexType.try_from 200 = .error (.custom "Cannot read IndexType") :=
  ⟨config_enum_try_from_spec.1 AtomicityMode.atomic,
   config_enum_try_from_spec.2.1 5 (Or.inr (by decide)),
   config_enum_try_from_spec.2.2.2.1 (-1) (Or.inl (by decide)),
   config_enum_try_from_spec.2.2.2.2.2.1 9 (Or.inr (by decide)),
   config_enum_try_from_spec.2.2.2.2.2.2.2.1 3 (Or.inr (by decide)),
   config_enum_try_from_spec.2.2.2.2.2.2.2.2.2.1 (-2) (Or.inl (by decide)),
   config_enum_try_from_spec.2.2.2.2.2.2.2.2.2.2.2 200 (by decide) (by decide)⟩
